import Mathlib

/-!
Verification of `me3wallet/vault-contract` (deployment script and test
constants) against its natural-language specification.  The Python source
is embedded shallowly: module-level constants become Lean definitions,
`IntFlag` enumerations become inductive types with a numeric valuation, and
the deployment procedure becomes a pure function parameterised over its
external collaborators (the factory contract call).
-/

namespace VaultContract

/-! ## Embedding of `tests/utils/constants.py` -/

def DAY : Nat := 86400

def WEEK : Nat := 7 * DAY

def YEAR : Nat := 31556952

def MAX_INT : Nat := 2 ^ 256 - 1

def ZERO_ADDRESS : String := "0x0000000000000000000000000000000000000000"

def MAX_BPS : Nat := 10000

namespace ROLES

def ADD_STRATEGY_MANAGER : Nat := 1

def REVOKE_STRATEGY_MANAGER : Nat := 2

def FORCE_REVOKE_MANAGER : Nat := 4

def ACCOUNTANT_MANAGER : Nat := 8

def QUEUE_MANAGER : Nat := 16

def REPORTING_MANAGER : Nat := 32

def DEBT_MANAGER : Nat := 64

def MAX_DEBT_MANAGER : Nat := 128

def DEPOSIT_LIMIT_MANAGER : Nat := 256

def WITHDRAW_LIMIT_MANAGER : Nat := 512

def MINIMUM_IDLE_MANAGER : Nat := 1024

def PROFIT_UNLOCK_MANAGER : Nat := 2048

def DEBT_PURCHASER : Nat := 4096

def EMERGENCY_MANAGER : Nat := 8192

def ALL : Nat := 16383

/-- The fourteen individually defined role flags, in source order
(every member of the `ROLES` IntFlag except the `ALL` sentinel). -/
def flags : List Nat :=
  [ADD_STRATEGY_MANAGER, REVOKE_STRATEGY_MANAGER, FORCE_REVOKE_MANAGER,
   ACCOUNTANT_MANAGER, QUEUE_MANAGER, REPORTING_MANAGER, DEBT_MANAGER,
   MAX_DEBT_MANAGER, DEPOSIT_LIMIT_MANAGER, WITHDRAW_LIMIT_MANAGER,
   MINIMUM_IDLE_MANAGER, PROFIT_UNLOCK_MANAGER, DEBT_PURCHASER,
   EMERGENCY_MANAGER]

end ROLES

/-- Embedding of the Python `StrategyChangeType(IntFlag)` class. -/
inductive StrategyChangeType where
  | ADDED
  | REVOKED
deriving DecidableEq

def StrategyChangeType.val : StrategyChangeType → Nat
  | .ADDED => 1
  | .REVOKED => 2

/-- Embedding of the Python `RoleStatusChange(IntFlag)` class. -/
inductive RoleStatusChange where
  | OPENED
  | CLOSED
deriving DecidableEq

def RoleStatusChange.val : RoleStatusChange → Nat
  | .OPENED => 1
  | .CLOSED => 2

/-- Embedding of the Python `ChangeType(IntFlag)` class. -/
inductive ChangeType where
  | ADDED
  | REMOVED
deriving DecidableEq

def ChangeType.val : ChangeType → Nat
  | .ADDED => 1
  | .REMOVED => 2

/-- All members of `StrategyChangeType`, in source order. -/
def StrategyChangeType.members : List StrategyChangeType := [.ADDED, .REVOKED]

/-- All members of `RoleStatusChange`, in source order. -/
def RoleStatusChange.members : List RoleStatusChange := [.OPENED, .CLOSED]

/-- All members of `ChangeType`, in source order. -/
def ChangeType.members : List ChangeType := [.ADDED, .REMOVED]

end VaultContract

namespace VaultContract

/-! ## Hexadecimal strings

Embedding of the pieces of Python string/bytes behaviour the script relies
on: `int(s, 16)` on a digest string, `bytes.fromhex`, and the `HexBytes`
conversion (strip an optional `0x` prefix, left-pad an odd-length hex
string with one `0`, then decode byte pairs). -/

/-- Numeric value of one hexadecimal digit character, `none` when the
character is not a hexadecimal digit. -/
def hexCharVal (c : Char) : Option Nat :=
  if '0' ≤ c ∧ c ≤ '9' then some (c.toNat - 48)
  else if 'a' ≤ c ∧ c ≤ 'f' then some (c.toNat - 87)
  else if 'A' ≤ c ∧ c ≤ 'F' then some (c.toNat - 55)
  else none

def intOfHexAux (acc : Nat) : List Char → Option Nat
  | [] => some acc
  | c :: cs =>
    match hexCharVal c with
    | none => none
    | some v => intOfHexAux (16 * acc + v) cs

/-- Python `int(s, 16)` restricted to the form the script feeds it: a
non-empty string of bare hexadecimal digits (a `hexdigest`). Any other
character, or an empty string, raises in Python, modelled by `none`. -/
def intOfHex (s : String) : Option Nat :=
  if s.data.isEmpty then none else intOfHexAux 0 s.data

/-- Python `bytes.fromhex` on a list of characters: consecutive pairs of
hexadecimal digits, failing on an odd count or a non-hex character. -/
def bytesFromHex : List Char → Option (List Nat)
  | [] => some []
  | [_] => none
  | c1 :: c2 :: rest =>
    match hexCharVal c1, hexCharVal c2, bytesFromHex rest with
    | some v1, some v2, some bs => some ((16 * v1 + v2) :: bs)
    | _, _, _ => none

/-- Strip a leading `0x` prefix, as `eth_utils.remove_0x_prefix` does. -/
def remove0x (s : String) : List Char :=
  match s.data with
  | '0' :: 'x' :: rest => rest
  | l => l

/-- The `HexBytes(str)` conversion: strip `0x`, left-pad an odd-length hex
string with a single `0`, decode byte pairs; a non-hex character raises,
modelled by `none`. -/
def hexStrToBytes (s : String) : Option (List Nat) :=
  let t := remove0x s
  bytesFromHex (if t.length % 2 = 1 then '0' :: t else t)

/-! ## The deployer factory address literal -/

/-- The address string literal at which the script looks up the `Deployer`
factory contract (`project.Deployer.at(...)`). -/
def deployer_factory_address : String :=
  "0x8D85e7c9A4e369E53Acc8d5426aE1568198b0112"

/-- The hexadecimal part of the factory address literal: the characters
after the `0x` prefix. -/
def deployer_factory_address_hex : List Char :=
  deployer_factory_address.data.drop 2

end VaultContract

namespace VaultContract

/-! ## SHA-256

Embedding of `hashlib.sha256` (FIPS 180-4), operating on byte lists, with
32-bit words represented as `Nat` reduced modulo `2 ^ 32`. -/

/-- Truncate to a 32-bit word. -/
def w32 (x : Nat) : Nat := x % 4294967296

/-- Rotate a 32-bit word right by `n` bits. -/
def rotr32 (n x : Nat) : Nat := w32 ((x >>> n) ||| (x <<< (32 - n)))

def shaCh (e f g : Nat) : Nat := (e &&& f) ^^^ ((4294967295 ^^^ e) &&& g)

def shaMaj (a b c : Nat) : Nat := (a &&& b) ^^^ (a &&& c) ^^^ (b &&& c)

def bigSigma0 (x : Nat) : Nat := rotr32 2 x ^^^ rotr32 13 x ^^^ rotr32 22 x

def bigSigma1 (x : Nat) : Nat := rotr32 6 x ^^^ rotr32 11 x ^^^ rotr32 25 x

def smallSigma0 (x : Nat) : Nat := rotr32 7 x ^^^ rotr32 18 x ^^^ (x >>> 3)

def smallSigma1 (x : Nat) : Nat := rotr32 17 x ^^^ rotr32 19 x ^^^ (x >>> 10)

/-- The 64 SHA-256 round constants, written in decimal. -/
def shaK : List Nat :=
  [1116352408, 1899447441, 3049323471, 3921009573, 961987163,
   1508970993, 2453635748, 2870763221, 3624381080, 310598401,
   607225278, 1426881987, 1925078388, 2162078206, 2614888103,
   3248222580, 3835390401, 4022224774, 264347078, 604807628,
   770255983, 1249150122, 1555081692, 1996064986, 2554220882,
   2821834349, 2952996808, 3210313671, 3336571891, 3584528711,
   113926993, 338241895, 666307205, 773529912, 1294757372,
   1396182291, 1695183700, 1986661051, 2177026350, 2456956037,
   2730485921, 2820302411, 3259730800, 3345764771, 3516065817,
   3600352804, 4094571909, 275423344, 430227734, 506948616,
   659060556, 883997877, 958139571, 1322822218, 1537002063,
   1747873779, 1955562222, 2024104815, 2227730452, 2361852424,
   2428436474, 2756734187, 3204031479, 3329325298]

/-- The SHA-256 initial hash value, written in decimal. -/
def shaH0 : List Nat :=
  [1779033703, 3144134277, 1013904242, 2773480762, 1359893119,
   2600822924, 528734635, 1541459225]

/-- Big-endian byte representation of `x` in exactly `n` bytes. -/
def toBytesBE : Nat → Nat → List Nat
  | 0, _ => []
  | n + 1, x => toBytesBE n (x / 256) ++ [x % 256]

/-- Interpret a big-endian byte list as a natural number. -/
def fromBytesBE (l : List Nat) : Nat := l.foldl (fun a b => 256 * a + b) 0

/-- Group a byte list into big-endian 32-bit words (four bytes each). -/
def bytesToWords : List Nat → List Nat
  | b0 :: b1 :: b2 :: b3 :: rest =>
    (((b0 * 256 + b1) * 256 + b2) * 256 + b3) :: bytesToWords rest
  | _ => []

/-- SHA-256 padding: append `0x80`, zero bytes up to 56 mod 64, then the
bit length as a 64-bit big-endian integer. -/
def shaPad (msg : List Nat) : List Nat :=
  let l := msg.length
  msg ++ 128 :: List.replicate ((119 - l % 64) % 64) 0 ++ toBytesBE 8 (8 * l)

/-- Extend the 16-word message block by `n` further schedule words. -/
def shaExtend (w : List Nat) : Nat → List Nat
  | 0 => w
  | n + 1 =>
    let v := shaExtend w n
    let j := v.length
    v ++ [w32 (smallSigma1 (v.getD (j - 2) 0) + v.getD (j - 7) 0 +
               smallSigma0 (v.getD (j - 15) 0) + v.getD (j - 16) 0)]

/-- One round of the SHA-256 compression function; the state is the list
`[a, b, c, d, e, f, g, h]` and `kw` pairs the round constant with the
schedule word. -/
def shaRound (st : List Nat) (kw : Nat × Nat) : List Nat :=
  let a := st.getD 0 0
  let b := st.getD 1 0
  let c := st.getD 2 0
  let d := st.getD 3 0
  let e := st.getD 4 0
  let f := st.getD 5 0
  let g := st.getD 6 0
  let h := st.getD 7 0
  let t1 := w32 (h + bigSigma1 e + shaCh e f g + kw.1 + kw.2)
  let t2 := w32 (bigSigma0 a + shaMaj a b c)
  [w32 (t1 + t2), a, b, c, w32 (d + t1), e, f, g]

/-- Process one 64-byte block, updating the eight-word hash state. -/
def shaProcessBlock (h : List Nat) (block : List Nat) : List Nat :=
  let w := shaExtend (bytesToWords block) 48
  let st := (shaK.zip w).foldl shaRound h
  (h.zip st).map fun p => w32 (p.1 + p.2)

/-- Fold the compression function over `n` consecutive 64-byte blocks. -/
def shaBlocks (h : List Nat) : Nat → List Nat → List Nat
  | 0, _ => h
  | n + 1, msg => shaBlocks (shaProcessBlock h (msg.take 64)) n (msg.drop 64)

/-- SHA-256 digest of a byte list, as a list of 32 bytes. -/
def sha256 (msg : List Nat) : List Nat :=
  let padded := shaPad msg
  (shaBlocks shaH0 (padded.length / 64) padded).foldr
    (fun w acc => toBytesBE 4 w ++ acc) []

/-- Lower-case hexadecimal digit for a value below 16, as Python's
`hexdigest` produces. -/
def hexDigitChar (n : Nat) : Char :=
  if n < 10 then Char.ofNat (48 + n) else Char.ofNat (87 + n)

/-- Lower-case hexadecimal rendering of a byte list, two digits per byte. -/
def bytesToHex (bs : List Nat) : List Char :=
  bs.foldr (fun b acc => hexDigitChar (b / 16) :: hexDigitChar (b % 16) :: acc) []

/-- Python's `hashlib.sha256(data).hexdigest()`. -/
def sha256hexdigest (msg : List Nat) : String :=
  String.mk (bytesToHex (sha256 msg))

/-- Python's `str.encode("utf-8")`: the UTF-8 bytes of one code point. -/
def utf8EncodeChar (c : Char) : List Nat :=
  let n := c.toNat
  if n < 128 then [n]
  else if n < 2048 then [192 + n / 64, 128 + n % 64]
  else if n < 65536 then [224 + n / 4096, 128 + (n / 64) % 64, 128 + n % 64]
  else [240 + n / 262144, 128 + (n / 4096) % 64, 128 + (n / 64) % 64,
        128 + n % 64]

/-- Python's `str.encode("utf-8")` on a whole string. -/
def encodeUtf8 (s : String) : List Nat :=
  s.data.foldr (fun c acc => utf8EncodeChar c ++ acc) []

/-! ## The salt computed by `deploy_address_provider` -/

/-- The fixed salt string of the script. -/
def salt_string : String := "address provider"

/-- The script's `hex_hash`: the SHA-256 hexdigest of the UTF-8 encoding of
`salt_string`. -/
def hex_hash : String := sha256hexdigest (encodeUtf8 salt_string)

/-- The script's `salt`: `int(hex_hash, 16)`; the digest string always
parses, so the `Option` default is never taken. -/
def script_salt : Nat := (intOfHex hex_hash).getD 0

/-! ## Address identifiers -/

/-- Modelled from the spec: the helper `to_bytes32` imported from
`utils.helpers` is not part of this excerpt; the spec describes each
address identifier as "the deterministic hash digest of its declared label
string", a fixed-size 32-byte digest reproduced identically on every
application. It is modelled as the SHA-256 digest of the UTF-8 encoding of
the label, a deterministic hash with a 32-byte digest. -/
def to_bytes32 (label : String) : List Nat := sha256 (encodeUtf8 label)

namespace AddressIds

def ROUTER : List Nat := to_bytes32 "ROUTER"

def RELEASE_REGISTRY : List Nat := to_bytes32 "RELEASE REGISTRY"

def REGISTRY_FACTORY : List Nat := to_bytes32 "REGISTRY FACTORY"

def COMMON_REPORT_TRIGGER : List Nat := to_bytes32 "COMMON REPORT TRIGGER"

def BASE_FEE_PROVIDER : List Nat := to_bytes32 "BASE FEE PROVIDER"

def APR_ORACLE : List Nat := to_bytes32 "APR ORACLE"

end AddressIds

/-! ## The deployment procedure

`deploy_address_provider` is embedded as a pure function of the operator's
answer to the confirmation prompt, the compiled initialization bytecode hex
literal, the ABI-encoded constructor arguments (produced by the external
`encode_input`), and the factory contract's `deploy` call, which enters as
a function returning either the layer's exception or the decoded
`Deployed` logs of the submitted transaction. -/

/-- A decoded `Deployed` event from the factory contract, carrying the
address of the deployed contract in its `addr` field. -/
structure DeployedEvent where
  addr : Nat
deriving DecidableEq

/-- Failures surfacing from a run of the script: a non-hex compiled
bytecode literal (`HexBytes` raises), whatever exception the underlying
contract-interaction layer raises from the factory call, and the
`IndexError` of `event[0]` when no `Deployed` log decodes. -/
inductive ScriptErr (ε : Type) where
  | hexError
  | factoryRaised (e : ε)
  | indexError
deriving DecidableEq

/-- Outcome of a completed run: either the operator answered `"n"` and the
procedure returned at once, or the deployment went through with the given
salt, payload, and reported address. -/
inductive ScriptOutcome where
  | aborted
  | deployed (salt : Nat) (payload : List Nat) (addr : Nat)
deriving DecidableEq

/-- `HexBytes` applied to a value that is already bytes: the identity. -/
def hexBytesOfBytes (b : List Nat) : List Nat := b

/-- The script's `deploy_bytecode`:
`HexBytes(HexBytes(bytecode) + constructor)` — decode the compiled
bytecode hex literal, append the ABI-encoded constructor arguments, and
pass the result through the (identity) bytes conversion. -/
def deploy_bytecode (bytecodeHex : String) (constructorData : List Nat) :
    Option (List Nat) :=
  match hexStrToBytes bytecodeHex with
  | none => none
  | some b => some (hexBytesOfBytes (b ++ constructorData))

/-- The tail of the script after the factory call (source lines 51 to 57):
the layer's exception propagates unchanged, `event[0]` on an empty decoded
log list raises `IndexError`, and otherwise the `addr` of the first
`Deployed` event is reported. -/
def handleTx {ε : Type} (payload : List Nat)
    (tx : Except ε (List DeployedEvent)) :
    Except (ScriptErr ε) ScriptOutcome :=
  match tx with
  | .error e => .error (.factoryRaised e)
  | .ok logs =>
    match logs with
    | [] => .error .indexError
    | ev :: _ => .ok (.deployed script_salt payload ev.addr)

/-- The body of `deploy_address_provider` after the confirmation prompt:
compute the salt, build the payload, submit `deploy(payload, salt)` to the
factory exactly once, and report the `addr` of the first decoded
`Deployed` event. There is no exception handler, no retry and no rollback
anywhere in the body. -/
def deployBody {ε : Type} (bytecodeHex : String) (constructorData : List Nat)
    (factory : List Nat → Nat → Except ε (List DeployedEvent)) :
    Except (ScriptErr ε) ScriptOutcome :=
  match deploy_bytecode bytecodeHex constructorData with
  | none => .error .hexError
  | some payload => handleTx payload (factory payload script_salt)

/-- The whole `deploy_address_provider` procedure: if the operator answers
exactly `"n"` it returns immediately, otherwise it runs the deployment
body. -/
def deploy_address_provider {ε : Type} (answer bytecodeHex : String)
    (constructorData : List Nat)
    (factory : List Nat → Nat → Except ε (List DeployedEvent)) :
    Except (ScriptErr ε) ScriptOutcome :=
  if answer = "n" then .ok .aborted
  else deployBody bytecodeHex constructorData factory

end VaultContract

/-! ## Length lemmas for the SHA-256 embedding -/

theorem toBytesBE_length (n x : Nat) :
    (VaultContract.toBytesBE n x).length = n := by
  induction n generalizing x with
  | zero => rfl
  | succ n ih => simp [VaultContract.toBytesBE, ih]

theorem shaRound_length (st : List Nat) (kw : Nat × Nat) :
    (VaultContract.shaRound st kw).length = 8 := rfl

theorem foldl_shaRound_length (l : List (Nat × Nat)) (st : List Nat)
    (hst : st.length = 8) :
    (l.foldl VaultContract.shaRound st).length = 8 := by
  induction l generalizing st with
  | nil => exact hst
  | cons x xs ih => exact ih _ (shaRound_length st x)

theorem shaProcessBlock_length (h block : List Nat) (hh : h.length = 8) :
    (VaultContract.shaProcessBlock h block).length = 8 := by
  unfold VaultContract.shaProcessBlock
  simp [List.length_zip, hh, foldl_shaRound_length _ h hh]

theorem shaBlocks_length (n : Nat) (msg h : List Nat) (hh : h.length = 8) :
    (VaultContract.shaBlocks h n msg).length = 8 := by
  induction n generalizing h msg with
  | zero => exact hh
  | succ n ih => exact ih _ _ (shaProcessBlock_length h _ hh)

theorem sha256_length (msg : List Nat) :
    (VaultContract.sha256 msg).length = 32 := by
  unfold VaultContract.sha256
  have key : ∀ l : List Nat,
      (l.foldr (fun w acc => VaultContract.toBytesBE 4 w ++ acc) []).length =
        4 * l.length := by
    intro l
    induction l with
    | nil => rfl
    | cons x xs ih =>
      simp [List.foldr, toBytesBE_length, ih, Nat.mul_succ, Nat.add_comm]
  rw [key, shaBlocks_length _ _ VaultContract.shaH0 (by rfl)]

/-! ## Theorems about the role-flag constants -/

/-- C3: `ROLES.ALL` equals the bitwise OR of every individually defined role
flag (the fourteen managers), and has no bit set outside that union: the
equality with the exact fold of `|||` over all fourteen flags gives both
inclusions at once. -/
theorem ROLES_ALL_eq_union_of_flags :
    VaultContract.ROLES.ALL = VaultContract.ROLES.flags.foldr (· ||| ·) 0 ∧
    VaultContract.ROLES.ALL =
      (VaultContract.ROLES.ADD_STRATEGY_MANAGER |||
       VaultContract.ROLES.REVOKE_STRATEGY_MANAGER |||
       VaultContract.ROLES.FORCE_REVOKE_MANAGER |||
       VaultContract.ROLES.ACCOUNTANT_MANAGER |||
       VaultContract.ROLES.QUEUE_MANAGER |||
       VaultContract.ROLES.REPORTING_MANAGER |||
       VaultContract.ROLES.DEBT_MANAGER |||
       VaultContract.ROLES.MAX_DEBT_MANAGER |||
       VaultContract.ROLES.DEPOSIT_LIMIT_MANAGER |||
       VaultContract.ROLES.WITHDRAW_LIMIT_MANAGER |||
       VaultContract.ROLES.MINIMUM_IDLE_MANAGER |||
       VaultContract.ROLES.PROFIT_UNLOCK_MANAGER |||
       VaultContract.ROLES.DEBT_PURCHASER |||
       VaultContract.ROLES.EMERGENCY_MANAGER) := by
  constructor <;> decide

/-- C6: the fourteen role flags are a closed set of named bit positions 0
through 13: there are fourteen members, member `k` (in source order) is
exactly `2 ^ k`, no two members share a bit, and every bit position from 0
to 13 is occupied by exactly one member. -/
theorem ROLES_flags_are_bit_positions :
    VaultContract.ROLES.flags = (List.range 14).map (fun k => 2 ^ k) ∧
    VaultContract.ROLES.flags.Pairwise (fun a b => a &&& b = 0) ∧
    (∀ k < 14, (VaultContract.ROLES.flags.filter
      (fun f => Nat.testBit f k)).length = 1) := by
  refine ⟨by decide, by decide, by decide⟩

/-- C8: each of the three change-type enumerations is a closed set of exactly
two members with values 1 and 2 (`ADDED`/`REVOKED`, `OPENED`/`CLOSED`,
`ADDED`/`REMOVED`); they are embedded as three separate inductive types,
sharing no definition, mirroring the three independent Python classes. -/
theorem change_type_enums_are_binary :
    (∀ x : VaultContract.StrategyChangeType,
        x ∈ VaultContract.StrategyChangeType.members) ∧
    VaultContract.StrategyChangeType.members.map
      VaultContract.StrategyChangeType.val = [1, 2] ∧
    (∀ x : VaultContract.RoleStatusChange,
        x ∈ VaultContract.RoleStatusChange.members) ∧
    VaultContract.RoleStatusChange.members.map
      VaultContract.RoleStatusChange.val = [1, 2] ∧
    (∀ x : VaultContract.ChangeType,
        x ∈ VaultContract.ChangeType.members) ∧
    VaultContract.ChangeType.members.map
      VaultContract.ChangeType.val = [1, 2] := by
  refine ⟨fun x => ?_, rfl, fun x => ?_, rfl, fun x => ?_, rfl⟩ <;>
    cases x <;> simp [VaultContract.StrategyChangeType.members,
      VaultContract.RoleStatusChange.members, VaultContract.ChangeType.members]

/-! ## Theorems about the factory address literal -/

/-- C5 counterexample: the claim that the factory address literal is
malformed with 43 hexadecimal characters is false on the source: the part
after the `0x` prefix has exactly 40 characters, not 43. -/
theorem deployer_factory_address_not_43_hex :
    VaultContract.deployer_factory_address_hex.length ≠ 43 ∧
    VaultContract.deployer_factory_address_hex.length = 40 := by
  decide

/-- C5 amended: the deployer factory address string literal is well-formed:
its hexadecimal part contains exactly 40 hexadecimal characters, every one
of them a valid hex digit, and the `HexBytes` conversion decodes the
literal to exactly 20 bytes. -/
theorem deployer_factory_address_wellformed :
    VaultContract.deployer_factory_address_hex.length = 40 ∧
    (∀ c ∈ VaultContract.deployer_factory_address_hex,
      (VaultContract.hexCharVal c).isSome) ∧
    Option.map List.length
      (VaultContract.hexStrToBytes VaultContract.deployer_factory_address) =
      some 20 := by
  refine ⟨by decide, by decide, by decide⟩

/-! ## Theorems about the deployment salt -/

set_option maxRecDepth 20000 in
/-- C1: the script's `salt` is the successful hex-integer parse of the
SHA-256 hexdigest of the UTF-8 bytes of the fixed string
`"address provider"`; it equals the digest bytes read as a big-endian
integer, its value is the fixed constant below on every invocation, and it
is strictly below `2 ^ 256`. -/
theorem script_salt_is_sha256_of_fixed_string :
    VaultContract.intOfHex VaultContract.hex_hash =
      some VaultContract.script_salt ∧
    VaultContract.script_salt =
      VaultContract.fromBytesBE
        (VaultContract.sha256 (VaultContract.encodeUtf8 "address provider")) ∧
    VaultContract.script_salt =
      13476920997752793447469330185897242238273528329391868269948580729240597053374 ∧
    VaultContract.script_salt < 2 ^ 256 := by
  refine ⟨by decide, by decide, by decide, by decide⟩

/-! ## Theorems about the address identifiers -/

/-- C4: each `AddressIds` constant equals the deterministic hash digest of
its declared label string (the spec-modelled `to_bytes32`); the conversion
always produces a 32-byte digest, and applying it twice to the same label
reproduces the same digest. -/
theorem AddressIds_are_label_digests :
    VaultContract.AddressIds.ROUTER = VaultContract.to_bytes32 "ROUTER" ∧
    VaultContract.AddressIds.RELEASE_REGISTRY =
      VaultContract.to_bytes32 "RELEASE REGISTRY" ∧
    VaultContract.AddressIds.REGISTRY_FACTORY =
      VaultContract.to_bytes32 "REGISTRY FACTORY" ∧
    VaultContract.AddressIds.COMMON_REPORT_TRIGGER =
      VaultContract.to_bytes32 "COMMON REPORT TRIGGER" ∧
    VaultContract.AddressIds.BASE_FEE_PROVIDER =
      VaultContract.to_bytes32 "BASE FEE PROVIDER" ∧
    VaultContract.AddressIds.APR_ORACLE =
      VaultContract.to_bytes32 "APR ORACLE" ∧
    (∀ s : String, (VaultContract.to_bytes32 s).length = 32) ∧
    (∀ s t : String, s = t →
      VaultContract.to_bytes32 s = VaultContract.to_bytes32 t) := by
  refine ⟨rfl, rfl, rfl, rfl, rfl, rfl, fun s => sha256_length _,
    fun s t h => by rw [h]⟩

/-- Witness for C4: the digest of the concrete label `"ROUTER"` has exactly
32 bytes, and re-hashing the same label gives the same digest. -/
theorem AddressIds_are_label_digests_witness :
    (VaultContract.to_bytes32 "ROUTER").length = 32 ∧
    VaultContract.to_bytes32 "ROUTER" = VaultContract.to_bytes32 "ROUTER" :=
  ⟨AddressIds_are_label_digests.2.2.2.2.2.2.1 "ROUTER",
   AddressIds_are_label_digests.2.2.2.2.2.2.2 "ROUTER" "ROUTER" rfl⟩

/-! ## Helper lemmas about the deployment body -/

theorem deploy_bytecode_eq (bytecodeHex : String) (constructorData b : List Nat)
    (hb : VaultContract.hexStrToBytes bytecodeHex = some b) :
    VaultContract.deploy_bytecode bytecodeHex constructorData =
      some (b ++ constructorData) := by
  unfold VaultContract.deploy_bytecode VaultContract.hexBytesOfBytes
  rw [hb]

theorem deployBody_spec {ε : Type} (bytecodeHex : String)
    (constructorData b : List Nat)
    (factory : List Nat → Nat → Except ε (List VaultContract.DeployedEvent))
    (hb : VaultContract.hexStrToBytes bytecodeHex = some b) :
    VaultContract.deployBody bytecodeHex constructorData factory =
      VaultContract.handleTx (b ++ constructorData)
        (factory (b ++ constructorData) VaultContract.script_salt) := by
  unfold VaultContract.deployBody
  rw [deploy_bytecode_eq bytecodeHex constructorData b hb]

theorem handleTx_ne_aborted {ε : Type} (payload : List Nat)
    (tx : Except ε (List VaultContract.DeployedEvent)) :
    VaultContract.handleTx payload tx ≠
      Except.ok VaultContract.ScriptOutcome.aborted := by
  cases tx with
  | error e => simp [VaultContract.handleTx]
  | ok logs => cases logs <;> simp [VaultContract.handleTx]

theorem deployBody_ne_aborted {ε : Type} (bytecodeHex : String)
    (constructorData : List Nat)
    (factory : List Nat → Nat → Except ε (List VaultContract.DeployedEvent)) :
    VaultContract.deployBody bytecodeHex constructorData factory ≠
      Except.ok VaultContract.ScriptOutcome.aborted := by
  unfold VaultContract.deployBody
  cases hdb : VaultContract.deploy_bytecode bytecodeHex constructorData with
  | none => simp
  | some payload => exact handleTx_ne_aborted payload _

/-! ## Theorems about the deployment procedure -/

/-- C2: the payload the script passes to the factory's `deploy` call is the
byte-exact concatenation of the decoded initialization bytecode followed by
the ABI-encoded constructor arguments, in that order, with no other bytes:
whenever the bytecode hex literal decodes to bytes `b`, `deploy_bytecode`
produces exactly `b ++ constructorData`, and the deployment body applies
the factory to exactly that byte sequence. -/
theorem payload_is_bytecode_then_constructor {ε : Type}
    (bytecodeHex : String) (constructorData b : List Nat)
    (factory : List Nat → Nat → Except ε (List VaultContract.DeployedEvent))
    (hb : VaultContract.hexStrToBytes bytecodeHex = some b) :
    VaultContract.deploy_bytecode bytecodeHex constructorData =
      some (b ++ constructorData) ∧
    VaultContract.deployBody bytecodeHex constructorData factory =
      VaultContract.handleTx (b ++ constructorData)
        (factory (b ++ constructorData) VaultContract.script_salt) :=
  ⟨deploy_bytecode_eq bytecodeHex constructorData b hb,
   deployBody_spec bytecodeHex constructorData b factory hb⟩

/-- Witness for C2: the bytecode literal `"0x60ff"` decodes to `[96, 255]`
and the payload for constructor bytes `[1, 2]` is `[96, 255, 1, 2]`. -/
theorem payload_is_bytecode_then_constructor_witness :
    VaultContract.deploy_bytecode "0x60ff" [1, 2] = some [96, 255, 1, 2] :=
  (payload_is_bytecode_then_constructor "0x60ff" [1, 2] [96, 255]
    (fun _ _ => (Except.ok [] : Except Nat (List VaultContract.DeployedEvent)))
    (by decide)).1

/-- C7: on a successful factory call, the procedure reports as the deployed
address exactly the `addr` field of the first `Deployed` event decoded from
the submitted transaction's logs, for every transaction whose decoded log
list is non-empty. -/
theorem reports_first_deployed_event_addr {ε : Type}
    (answer bytecodeHex : String) (constructorData b : List Nat)
    (factory : List Nat → Nat → Except ε (List VaultContract.DeployedEvent))
    (logs : List VaultContract.DeployedEvent)
    (ha : answer ≠ "n")
    (hb : VaultContract.hexStrToBytes bytecodeHex = some b)
    (hf : factory (b ++ constructorData) VaultContract.script_salt =
      Except.ok logs)
    (hne : logs ≠ []) :
    VaultContract.deploy_address_provider answer bytecodeHex constructorData
        factory =
      Except.ok (VaultContract.ScriptOutcome.deployed VaultContract.script_salt
        (b ++ constructorData) (logs.head hne).addr) := by
  unfold VaultContract.deploy_address_provider
  rw [if_neg ha, deployBody_spec bytecodeHex constructorData b factory hb, hf]
  cases logs with
  | nil => exact absurd rfl hne
  | cons ev rest => rfl

/-- Witness for C7: with a factory whose transaction decodes to the single
event `Deployed(addr = 5)`, the procedure reports address 5. -/
theorem reports_first_deployed_event_addr_witness :
    @VaultContract.deploy_address_provider Nat "y" "0x" []
      (fun _ _ => Except.ok [⟨5⟩]) =
      Except.ok (VaultContract.ScriptOutcome.deployed
        VaultContract.script_salt [] 5) :=
  reports_first_deployed_event_addr "y" "0x" [] []
    (fun _ _ => Except.ok [⟨5⟩]) [⟨5⟩] (by decide) (by decide) rfl (by decide)

/-- C9: the procedure installs no exception handler: whatever failure the
underlying contract-interaction layer raises from the factory call
propagates uncaught out of the procedure, with no retry and no rollback,
for every error value of every error type. -/
theorem factory_exception_propagates {ε : Type}
    (answer bytecodeHex : String) (constructorData b : List Nat) (e : ε)
    (factory : List Nat → Nat → Except ε (List VaultContract.DeployedEvent))
    (ha : answer ≠ "n")
    (hb : VaultContract.hexStrToBytes bytecodeHex = some b)
    (hf : factory (b ++ constructorData) VaultContract.script_salt =
      Except.error e) :
    VaultContract.deploy_address_provider answer bytecodeHex constructorData
        factory =
      Except.error (VaultContract.ScriptErr.factoryRaised e) := by
  unfold VaultContract.deploy_address_provider
  rw [if_neg ha, deployBody_spec bytecodeHex constructorData b factory hb, hf]
  rfl

/-- Witness for C9: a factory raising the error value 42 makes the whole
run fail with exactly that error. -/
theorem factory_exception_propagates_witness :
    @VaultContract.deploy_address_provider Nat "y" "0x" []
      (fun _ _ => Except.error 42) =
      Except.error (VaultContract.ScriptErr.factoryRaised 42) :=
  factory_exception_propagates "y" "0x" [] [] 42
    (fun _ _ => Except.error 42) (by decide) (by decide) rfl

/-- C10: the confirmation prompt gates the deployment on the exact string
`"n"`: answering `"n"` returns immediately with no salt computation, no
payload construction and no factory call (the result is `aborted` for
every factory whatsoever), while every other answer runs the deployment
body, whose result is never `aborted`. -/
theorem confirmation_prompt_gates_deployment {ε : Type}
    (answer bytecodeHex : String) (constructorData : List Nat)
    (factory : List Nat → Nat → Except ε (List VaultContract.DeployedEvent)) :
    (answer = "n" →
      VaultContract.deploy_address_provider answer bytecodeHex constructorData
        factory = Except.ok VaultContract.ScriptOutcome.aborted) ∧
    (answer ≠ "n" →
      VaultContract.deploy_address_provider answer bytecodeHex constructorData
          factory =
        VaultContract.deployBody bytecodeHex constructorData factory ∧
      VaultContract.deploy_address_provider answer bytecodeHex constructorData
          factory ≠ Except.ok VaultContract.ScriptOutcome.aborted) := by
  constructor
  · intro h
    unfold VaultContract.deploy_address_provider
    rw [if_pos h]
  · intro h
    have hrun : VaultContract.deploy_address_provider answer bytecodeHex
        constructorData factory =
        VaultContract.deployBody bytecodeHex constructorData factory := by
      unfold VaultContract.deploy_address_provider
      rw [if_neg h]
    exact ⟨hrun, fun hcon =>
      deployBody_ne_aborted bytecodeHex constructorData factory (hrun ▸ hcon)⟩

/-- Witness for C10: answering exactly `"n"` aborts even when the factory
would fail, while the different answer `"N"` proceeds past the prompt. -/
theorem confirmation_prompt_gates_deployment_witness :
    @VaultContract.deploy_address_provider Nat "n" "0x" []
      (fun _ _ => Except.error 0) =
      Except.ok VaultContract.ScriptOutcome.aborted ∧
    @VaultContract.deploy_address_provider Nat "N" "0x" []
      (fun _ _ => Except.error 0) ≠
      Except.ok VaultContract.ScriptOutcome.aborted :=
  ⟨(confirmation_prompt_gates_deployment "n" "0x" []
      (fun _ _ => Except.error 0)).1 rfl,
   ((confirmation_prompt_gates_deployment "N" "0x" []
      (fun _ _ => Except.error 0)).2 (by decide)).2⟩

/-- Witness for C6: instantiating the bit-occupancy clause at the concrete
position 3, exactly one flag (`ACCOUNTANT_MANAGER`) occupies bit 3. -/
theorem ROLES_flags_are_bit_positions_witness :
    (VaultContract.ROLES.flags.filter (fun f => Nat.testBit f 3)).length = 1 :=
  ROLES_flags_are_bit_positions.2.2 3 (by decide)
